import Mathlib

/-!
Verification of the NAT-instances orchestration workflows.

Shallow embedding of the four Step Functions state machines defined by the CDK
code in src/stacks/NatInstances.ts, with the provider-call tasks transcribed
from src/constructs/StepFunctions.ts (class StepFunctionsNatInstances) and the
constants from src/constants/Common.ts.  Each state machine definition is a
static step graph; its runtime behaviour is embedded as an executable function
from the provider responses (the execution's environment) to the execution's
terminal status together with the ordered list of provider calls it issues.
-/

namespace NatInstances

/-- Availability-zone configuration record, from the AzConfiguration
interface in src/model/Vpc.ts.  One entry per availability zone, built in the
NatInstancesStack constructor from SSM parameters. -/
structure AzConfiguration where
  availabilityZone : String
  publicSubnetId : String
  natGatewayId : String
  privateSubnetId : String
  privateRouteTableId : String
  deriving DecidableEq, Repr

/-- Terminal failure markers of the state machines.  The named constructors
mirror the ids passed to createStateMachineFailState in NatInstances.ts
('Failover', 'ReplaceInstance', 'AlreadyRunning', 'Fallback', 'Generic',
'ImagePipeline', 'AlreadyRunningPipeline').  Modelled from the spec: the
helper createStateMachineFailState lives in StepFunctionsTasks.ts, which is
not present under src/; per the spec every catch routes to a dedicated
terminal Fail state carrying a structured cause.  The extra `timeout`
constructor stands for the engine-level States.Timeout failure raised when an
execution exceeds its whole-execution timeout. -/
inductive FailState where
  | failover
  | replaceInstance
  | alreadyRunning
  | fallback
  | generic
  | imagePipeline
  | alreadyRunningPipeline
  | timeout
  deriving DecidableEq, Repr

/-- Terminal status of one workflow execution. -/
inductive ExecStatus where
  | succeeded
  | failed (cause : FailState)
  deriving DecidableEq, Repr

/-- Parameters of one ec2:replaceRoute call with a NAT gateway target, as
built by getReplaceRouteWithNatGatewayTask in src/constructs/StepFunctions.ts:
DestinationCidrBlock is the constant '0.0.0.0/0', NatGatewayId and
RouteTableId are taken from the Map item ($.natGatewayId and
$.privateRouteTableId). -/
structure GatewayRouteCall where
  destinationCidrBlock : String
  routeTableId : String
  natGatewayId : String
  deriving DecidableEq, Repr

/-- The replaceRoute call issued for one AZ configuration item of the
MapOfAZConfigurations fan-out (createFailoverStateMachine). -/
def replaceRouteWithNatGatewayCall (az : AzConfiguration) : GatewayRouteCall :=
  { destinationCidrBlock := "0.0.0.0/0"
    routeTableId := az.privateRouteTableId
    natGatewayId := az.natGatewayId }

/-- Calls issued by the MapOfAZConfigurations step of the Failover state
machine: the GetAZConfigurations Pass injects $.azConfigurations and the Map
runs replaceRouteTask once per item. -/
def failoverCalls (azs : List AzConfiguration) : List GatewayRouteCall :=
  azs.map replaceRouteWithNatGatewayCall

/-- Terminal status of a FailoverStateMachine execution given the outcome of
each replaceRoute call: the Map step carries addCatch(failed), so a single
failing item routes the whole execution to the Failover fail state; when all
items succeed the Map is the machine's last state and the execution
succeeds. -/
def failoverStateMachineRun (azs : List AzConfiguration)
    (ok : GatewayRouteCall → Bool) : ExecStatus :=
  if (failoverCalls azs).all ok then ExecStatus.succeeded
  else ExecStatus.failed FailState.failover

/-- C3: for every non-empty zone set, a fresh FailoverWorkflow execution
issues exactly one default-route replacement per zone, pointing the zone's
private route table at that zone's standby NAT gateway id, and succeeds when
every replacement call succeeds; if any single replacement call fails, the
whole execution reports Failed. -/
theorem failover_one_route_replacement_per_zone
    (azs : List AzConfiguration) (ok : GatewayRouteCall → Bool)
    (hne : azs ≠ []) :
    (failoverCalls azs).length = azs.length
    ∧ (∀ (n : Nat) (az : AzConfiguration), azs[n]? = some az →
        (failoverCalls azs)[n]? = some
          ({ destinationCidrBlock := "0.0.0.0/0"
             routeTableId := az.privateRouteTableId
             natGatewayId := az.natGatewayId } : GatewayRouteCall))
    ∧ ((∀ c ∈ failoverCalls azs, ok c = true) →
        failoverStateMachineRun azs ok = ExecStatus.succeeded)
    ∧ (∀ c, c ∈ failoverCalls azs → ok c = false →
        failoverStateMachineRun azs ok = ExecStatus.failed FailState.failover) := by
  refine ⟨?_, ?_, ?_, ?_⟩
  · simp [failoverCalls]
  · intro n az hn
    simp [failoverCalls, List.getElem?_map, hn, replaceRouteWithNatGatewayCall]
  · intro hall
    simp [failoverStateMachineRun, List.all_eq_true]
    exact hall
  · intro c hc hfalse
    have : ¬ (failoverCalls azs).all ok = true := by
      simp [List.all_eq_true]
      exact ⟨c, hc, by simp [hfalse]⟩
    simp [failoverStateMachineRun, this]

/-- Concrete zone configuration used to instantiate hypothesis-bearing
theorems about the Failover machine. -/
def azExampleA : AzConfiguration :=
  { availabilityZone := "eu-west-1a"
    publicSubnetId := "subnet-pub-a"
    natGatewayId := "nat-a"
    privateSubnetId := "subnet-priv-a"
    privateRouteTableId := "rtb-a" }

theorem failover_one_route_replacement_per_zone_witness :
    (failoverCalls [azExampleA]).length = [azExampleA].length
    ∧ failoverStateMachineRun [azExampleA] (fun _ => true) = ExecStatus.succeeded := by
  have h := failover_one_route_replacement_per_zone [azExampleA] (fun _ => true)
    (by decide)
  exact ⟨h.1, h.2.2.1 (by intro c _; rfl)⟩

/-- One EC2 instance as reported inside a reservation of a describeInstances
response ($.NatInstances.Reservations[].Instances[]); the workflows read its
InstanceId and SubnetId. -/
structure Ec2Instance where
  instanceId : String
  subnetId : String
  deriving DecidableEq, Repr

/-- One reservation of a describeInstances response.  The NAT instances are
launched one per runInstances call (MinCount = MaxCount = 1 in
getRunInstanceTask), so each pre-existing instance shows up as its own
reservation holding a single instance. -/
structure Reservation where
  instances : List Ec2Instance
  deriving DecidableEq, Repr

/-- One entry of the InstanceStatuses array of a describeInstanceStatus
response, keeping the two fields read by the IsInstanceReady? choice:
InstanceStatus.Status and SystemStatus.Status. -/
structure StatusEntry where
  instanceStatus : String
  systemStatus : String
  deriving DecidableEq, Repr

/-- One describeInstanceStatus poll result: the InstanceStatuses array, which
can be empty right after launch. -/
abbrev Poll := List StatusEntry

/-- Parameters of the runInstances call built by getRunInstanceTask in
src/constructs/StepFunctions.ts: SubnetId comes from the Map item's
$.publicSubnetId, DisableApiTermination is hardcoded true, and
MetadataOptions.HttpEndpoint is hardcoded 'disabled'. -/
structure RunInstanceRequest where
  subnetId : String
  disableApiTermination : Bool
  metadataHttpEndpoint : String
  deriving DecidableEq, Repr

/-- The runInstances request issued for one AZ configuration item of the
CreateNewInstances map. -/
def runInstanceRequest (az : AzConfiguration) : RunInstanceRequest :=
  { subnetId := az.publicSubnetId
    disableApiTermination := true
    metadataHttpEndpoint := "disabled" }

/-- Provider calls issued by the ReplaceInstance, Fallback and Maintenance
state machines, in the order the step graph reaches them. -/
inductive Event where
  | listExecutions
  | triggerFailover
  | describeInstances
  | disableTerminationProtection (instanceId : String)
  | terminateInstance (instanceId : String)
  | getLatestImage
  | runInstance (req : RunInstanceRequest)
  | describeInstanceStatus (instanceId : String)
  | disableSourceDestCheck (instanceId : String)
  | replaceRouteWithInstance (routeTableId : String) (instanceId : String)
  | getPipelineStatus
  | triggerPipeline
  | triggerReplaceInstances
  | triggerFallback
  deriving DecidableEq, Repr

/-- Whether the event is a terminateInstances call. -/
def Event.isTerminate : Event → Bool
  | .terminateInstance _ => true
  | _ => false

/-- Whether the event is the modifyInstanceAttribute call that disables
termination protection. -/
def Event.isDisableProtection : Event → Bool
  | .disableTerminationProtection _ => true
  | _ => false

/-- Whether the event mutates provider state or starts a workflow or build
that does; the listExecutions, describeInstances, describeInstanceStatus and
image-status calls are reads. -/
def Event.isMutation : Event → Bool
  | .listExecutions => false
  | .describeInstances => false
  | .describeInstanceStatus _ => false
  | .getPipelineStatus => false
  | .getLatestImage => false
  | _ => true

/-- Environment of one NATInstanceReplaceInstance execution: the provider
responses it observes.  `executions` is the Executions array returned by the
listExecutions guard call (it contains the calling execution itself);
`failoverOk` is the terminal outcome of the synchronously triggered Failover
child; `reservations` is $.NatInstances.Reservations from the tag-filtered
describeInstances call; `launchedIds` gives the InstanceId returned by
runInstances for each zone index, and `statusPolls` the successive
describeInstanceStatus responses for that zone's new instance. -/
structure ReplacementEnv where
  executions : List String
  failoverOk : Bool
  reservations : List Reservation
  launchedIds : Nat → String
  statusPolls : Nat → List Poll

/-- The IsInstanceReady? choice of waitRunningInstanceLoop in
createReplaceInstanceStateMachine, iterated over the successive poll results:
when $.Instance.InstanceStatuses[0] is not present the loop goes back to
WaitForRun; when InstanceStatus.Status or SystemStatus.Status differs from
'ok' it also goes back to WaitForRun; otherwise it leaves for
DisableSourceDestCheckTask.  The result is the number of the poll on which
the loop exits, or none when every provided poll loops back. -/
def waitRunningInstanceLoopExit : List Poll → Option Nat
  | [] => none
  | ([] : Poll) :: rest => (waitRunningInstanceLoopExit rest).map (· + 1)
  | (e :: _) :: rest =>
    if ¬ (e.instanceStatus = "ok") ∨ ¬ (e.systemStatus = "ok") then
      (waitRunningInstanceLoopExit rest).map (· + 1)
    else some 0

/-- Both status checks of a poll's first entry report 'ok'. -/
def pollReady : Poll → Bool
  | [] => false
  | e :: _ => e.instanceStatus == "ok" && e.systemStatus == "ok"

/-- Item processor of the DisableInstancesTerminationProtection map
(terminateOldInstancesBranch): disableTerminationProtectionTask then
terminateOldInstancesTask, both addressing $.Instances[0].InstanceId of the
reservation item; an empty Instances array makes the JsonPath reference fail
and the branch with it. -/
def terminateReservationItem (r : Reservation) : Option (List Event) :=
  match r.instances with
  | [] => none
  | i :: _ =>
    some [Event.disableTerminationProtection i.instanceId,
          Event.terminateInstance i.instanceId]

/-- Terminate-instances branch of the InstancesReplacement parallel: the
AnyInstance? choice runs the map when $.NatInstances.Reservations[0] is
present and otherwise takes the explicit NoOp default. -/
def terminateOldInstancesBranch (rs : List Reservation) : Option (List Event) :=
  match rs with
  | [] => some []
  | _ :: _ => (rs.mapM terminateReservationItem).map List.flatten

/-- Item processor of the CreateNewInstances map: getNatInstancesImageTask,
then runNatInstanceTask, then waitRunningInstanceLoop which polls
describeInstanceStatus until ready and finally disables the source/dest
check.  Returns none when the status loop never exits (the execution then
hangs in the loop until the machine's 5-minute sanity timeout fires). -/
def createInstanceItem (az : AzConfiguration) (iid : String)
    (polls : List Poll) : Option (List Event) :=
  match waitRunningInstanceLoopExit polls with
  | none => none
  | some k =>
    some ([Event.getLatestImage, Event.runInstance (runInstanceRequest az)]
      ++ (List.range (k + 1)).map (fun _ => Event.describeInstanceStatus iid)
      ++ [Event.disableSourceDestCheck iid])

/-- Create-new-instances branch of the InstancesReplacement parallel: the
GetSubnets pass injects $.azConfigurations and the CreateNewInstances map
runs the item processor once per zone configuration. -/
def createNewInstancesBranch (azs : List AzConfiguration)
    (env : ReplacementEnv) : Option (List Event) :=
  (azs.enum.mapM
    (fun p => createInstanceItem p.2 (env.launchedIds p.1) (env.statusPolls p.1))).map
    List.flatten

/-- Runtime behaviour of the NATInstanceReplaceInstance state machine
(createReplaceInstanceStateMachine): the guard listExecutions call, the
AlreadyRunningStateMachine? choice on $.Executions[1], the synchronous
TriggerFailover whose catch routes to the ReplaceInstance fail state, the
tag-filtered describeInstances, and the InstancesReplacement parallel whose
catch also routes to the ReplaceInstance fail state.  A create branch stuck
in its status loop runs into the machine's 5-minute sanity timeout. -/
def replaceInstanceStateMachineRun (azs : List AzConfiguration)
    (env : ReplacementEnv) : ExecStatus × List Event :=
  if (env.executions[1]?).isSome then
    (ExecStatus.failed FailState.alreadyRunning, [Event.listExecutions])
  else if env.failoverOk = false then
    (ExecStatus.failed FailState.replaceInstance,
     [Event.listExecutions, Event.triggerFailover])
  else
    let headEvents :=
      [Event.listExecutions, Event.triggerFailover, Event.describeInstances]
    match terminateOldInstancesBranch env.reservations,
          createNewInstancesBranch azs env with
    | some ea, some eb => (ExecStatus.succeeded, headEvents ++ ea ++ eb)
    | none, _ => (ExecStatus.failed FailState.replaceInstance, headEvents)
    | some _, none => (ExecStatus.failed FailState.timeout, headEvents)

/-- Calls a ReplaceInstance execution issues strictly before the
TriggerFailover step. -/
def eventsBeforeFailover (tr : List Event) : List Event :=
  tr.takeWhile (fun e => e != Event.triggerFailover)

/-- C2: starting ReplacementWorkflow while another Replacement execution is
Running fails with SingletonConflict (the AlreadyRunning fail state): the
guard lists Running executions, which include the caller itself, and fails
when it observes more than one, before any provider mutation is
performed. -/
theorem replacement_singleton_conflict (azs : List AzConfiguration)
    (env : ReplacementEnv) (h : 1 < env.executions.length) :
    (replaceInstanceStateMachineRun azs env).1
        = ExecStatus.failed FailState.alreadyRunning
    ∧ (replaceInstanceStateMachineRun azs env).2 = [Event.listExecutions]
    ∧ ∀ e ∈ (replaceInstanceStateMachineRun azs env).2, e.isMutation = false := by
  have hguard : (env.executions[1]?).isSome := by
    simp [List.getElem?_eq_getElem h]
  refine ⟨?_, ?_, ?_⟩ <;>
    simp [replaceInstanceStateMachineRun, hguard, Event.isMutation]

/-- Environment with a second Running execution observed by the guard. -/
def envConflict : ReplacementEnv :=
  { executions := ["this-execution", "other-execution"]
    failoverOk := true
    reservations := []
    launchedIds := fun _ => "i-new"
    statusPolls := fun _ => [] }

theorem replacement_singleton_conflict_witness :
    (replaceInstanceStateMachineRun [azExampleA] envConflict).1
        = ExecStatus.failed FailState.alreadyRunning
    ∧ (replaceInstanceStateMachineRun [azExampleA] envConflict).2
        = [Event.listExecutions] := by
  have h := replacement_singleton_conflict [azExampleA] envConflict (by decide)
  exact ⟨h.1, h.2.1⟩

/-- C1: in every ReplaceInstance execution the only call preceding the
TriggerFailover step is the read-only guard listing — in particular the
instance listing and the parallel terminate/create step come after Failover
has reached a terminal state — and when the synchronous Failover child fails,
the execution fails through the catch into the ReplaceInstance fail state
without any terminateInstances call having been issued. -/
theorem replacement_failover_before_terminate (azs : List AzConfiguration)
    (env : ReplacementEnv) :
    eventsBeforeFailover (replaceInstanceStateMachineRun azs env).2
        = [Event.listExecutions]
    ∧ (env.executions[1]? = none → env.failoverOk = false →
        (replaceInstanceStateMachineRun azs env).1
            = ExecStatus.failed FailState.replaceInstance
        ∧ ∀ e ∈ (replaceInstanceStateMachineRun azs env).2,
            e.isTerminate = false) := by
  constructor
  · by_cases h1 : (env.executions[1]?).isSome
    · simp [replaceInstanceStateMachineRun, h1, eventsBeforeFailover]
    · by_cases h2 : env.failoverOk = false
      · simp [replaceInstanceStateMachineRun, h1, h2, eventsBeforeFailover]
      · rcases hA : terminateOldInstancesBranch env.reservations with _ | ea <;>
          rcases hB : createNewInstancesBranch azs env with _ | eb <;>
            simp [replaceInstanceStateMachineRun, h1, h2, hA, hB,
              eventsBeforeFailover, List.takeWhile]
  · intro h1 h2
    have h1' : ¬ (env.executions[1]?).isSome = true := by simp [h1]
    constructor <;> simp [replaceInstanceStateMachineRun, h1', h2, Event.isTerminate]

/-- Environment whose Failover child fails while the guard passes. -/
def envFailoverFail : ReplacementEnv :=
  { executions := ["this-execution"]
    failoverOk := false
    reservations := [{ instances := [{ instanceId := "i-old", subnetId := "subnet-pub-a" }] }]
    launchedIds := fun _ => "i-new"
    statusPolls := fun _ => [] }

theorem replacement_failover_before_terminate_witness :
    eventsBeforeFailover (replaceInstanceStateMachineRun [azExampleA] envFailoverFail).2
        = [Event.listExecutions]
    ∧ (replaceInstanceStateMachineRun [azExampleA] envFailoverFail).1
        = ExecStatus.failed FailState.replaceInstance
    ∧ Event.isTerminate Event.listExecutions = false := by
  have h := replacement_failover_before_terminate [azExampleA] envFailoverFail
  refine ⟨h.1, (h.2 rfl rfl).1, ?_⟩
  exact (h.2 rfl rfl).2 Event.listExecutions (by decide)

/-- Poll whose first entry reports 'ok' on both status checks. -/
def readyPoll : Poll := [{ instanceStatus := "ok", systemStatus := "ok" }]

lemma createInstanceItem_readyPoll (az : AzConfiguration) (iid : String) :
    createInstanceItem az iid [readyPoll]
      = some [Event.getLatestImage, Event.runInstance (runInstanceRequest az),
              Event.describeInstanceStatus iid, Event.disableSourceDestCheck iid] := rfl

/-- Whether the event is one of the two calls of the terminate branch's item
processor (disable termination protection, terminate). -/
def Event.isTerminationAction : Event → Bool
  | .disableTerminationProtection _ => true
  | .terminateInstance _ => true
  | _ => false

/-- Whether the event is a runInstances call. -/
def Event.isLaunch : Event → Bool
  | .runInstance _ => true
  | _ => false

/-- Environment of a successful replacement over two pre-existing instances:
a single Running execution (the caller itself), a successful Failover child,
two reservations of one instance each, and every zone's first status poll
reporting both checks 'ok'. -/
def envTwoOld (i1 i2 : Ec2Instance) (ids : Nat → String) : ReplacementEnv :=
  { executions := ["this-execution"]
    failoverOk := true
    reservations := [{ instances := [i1] }, { instances := [i2] }]
    launchedIds := ids
    statusPolls := fun _ => [readyPoll] }

/-- C4: given 3 zones and 2 pre-existing running instances, a successful
ReplacementWorkflow run terminates both existing instances, disabling each
one's termination protection first, and launches exactly 3 new instances,
one in each zone's public subnet. -/
theorem replacement_three_zones_two_instances
    (az1 az2 az3 : AzConfiguration) (i1 i2 : Ec2Instance) (ids : Nat → String) :
    (replaceInstanceStateMachineRun [az1, az2, az3] (envTwoOld i1 i2 ids)).1
        = ExecStatus.succeeded
    ∧ ((replaceInstanceStateMachineRun [az1, az2, az3] (envTwoOld i1 i2 ids)).2.filter
          Event.isTerminationAction)
        = [Event.disableTerminationProtection i1.instanceId,
           Event.terminateInstance i1.instanceId,
           Event.disableTerminationProtection i2.instanceId,
           Event.terminateInstance i2.instanceId]
    ∧ ((replaceInstanceStateMachineRun [az1, az2, az3] (envTwoOld i1 i2 ids)).2.filter
          Event.isLaunch)
        = [Event.runInstance (runInstanceRequest az1),
           Event.runInstance (runInstanceRequest az2),
           Event.runInstance (runInstanceRequest az3)]
    ∧ (runInstanceRequest az1).subnetId = az1.publicSubnetId
    ∧ (runInstanceRequest az2).subnetId = az2.publicSubnetId
    ∧ (runInstanceRequest az3).subnetId = az3.publicSubnetId :=
  ⟨rfl, rfl, rfl, rfl, rfl, rfl⟩

/-- Every element of a list maps to some value, so mapM returns the list of
those values. -/
lemma mapM_option_of_forall_some {α β : Type} (f : α → Option β) (g : α → β)
    (hf : ∀ a, f a = some (g a)) : ∀ l : List α, l.mapM f = some (l.map g) := by
  intro l
  induction l with
  | nil => rfl
  | cons a t ih => rw [List.mapM_cons, hf, ih]; rfl

/-- Environment of a replacement run that finds no pre-existing instance. -/
def envNoOld (ids : Nat → String) : ReplacementEnv :=
  { executions := ["this-execution"]
    failoverOk := true
    reservations := []
    launchedIds := ids
    statusPolls := fun _ => [readyPoll] }

/-- C10: a ReplaceInstance execution with zero pre-existing running instances
still succeeds: the AnyInstance? choice of the terminate branch has an
explicit NoOp default taken when the listing returns no reservations, so the
parallel step does not fail for lack of work and no disable-protection or
terminate call is made. -/
theorem replacement_zero_instances (azs : List AzConfiguration)
    (ids : Nat → String) :
    (replaceInstanceStateMachineRun azs (envNoOld ids)).1 = ExecStatus.succeeded
    ∧ ∀ e ∈ (replaceInstanceStateMachineRun azs (envNoOld ids)).2,
        e.isTerminate = false ∧ e.isDisableProtection = false := by
  have hB : createNewInstancesBranch azs (envNoOld ids)
      = some ((azs.enum.map (fun p =>
          [Event.getLatestImage, Event.runInstance (runInstanceRequest p.2),
           Event.describeInstanceStatus (ids p.1),
           Event.disableSourceDestCheck (ids p.1)])).flatten) := by
    unfold createNewInstancesBranch
    rw [mapM_option_of_forall_some
      (fun p => createInstanceItem p.2 ((envNoOld ids).launchedIds p.1)
        ((envNoOld ids).statusPolls p.1))
      (fun p => [Event.getLatestImage, Event.runInstance (runInstanceRequest p.2),
        Event.describeInstanceStatus (ids p.1),
        Event.disableSourceDestCheck (ids p.1)])
      (fun p => createInstanceItem_readyPoll p.2 (ids p.1)) azs.enum]
    rfl
  have hrun : replaceInstanceStateMachineRun azs (envNoOld ids)
      = (ExecStatus.succeeded,
         [Event.listExecutions, Event.triggerFailover, Event.describeInstances]
           ++ [] ++ (azs.enum.map (fun p =>
            [Event.getLatestImage, Event.runInstance (runInstanceRequest p.2),
             Event.describeInstanceStatus (ids p.1),
             Event.disableSourceDestCheck (ids p.1)])).flatten) := by
    unfold replaceInstanceStateMachineRun
    rw [hB]
    rfl
  rw [hrun]
  refine ⟨rfl, ?_⟩
  intro e he
  simp only [List.append_nil, List.nil_append, List.mem_append, List.mem_cons,
    List.not_mem_nil, or_false, List.mem_flatten, List.mem_map] at he
  rcases he with (rfl | rfl | rfl) | ⟨l, ⟨p, _, rfl⟩, hel⟩
  · exact ⟨rfl, rfl⟩
  · exact ⟨rfl, rfl⟩
  · exact ⟨rfl, rfl⟩
  · simp only [List.mem_cons, List.not_mem_nil, or_false] at hel
    rcases hel with rfl | rfl | rfl | rfl <;> exact ⟨rfl, rfl⟩

theorem replacement_zero_instances_witness :
    (replaceInstanceStateMachineRun [azExampleA] (envNoOld (fun _ => "i-new"))).1
        = ExecStatus.succeeded
    ∧ Event.isTerminate Event.listExecutions = false := by
  have h := replacement_zero_instances [azExampleA] (fun _ => "i-new")
  refine ⟨h.1, ?_⟩
  exact (h.2 Event.listExecutions (by decide)).1

/-- First-ok characterisation of the status-poll loop: it exits exactly on
the first poll whose first InstanceStatuses entry reports both checks 'ok';
every earlier poll either had no status yet or a not-yet-ok status. -/
lemma waitRunningInstanceLoopExit_spec :
    ∀ (polls : List Poll) (k : Nat), waitRunningInstanceLoopExit polls = some k →
      (∃ q, polls[k]? = some q ∧ pollReady q = true)
      ∧ ∀ j, j < k → ∃ q, polls[j]? = some q ∧ pollReady q = false := by
  intro polls
  induction polls with
  | nil => intro k h; simp [waitRunningInstanceLoopExit] at h
  | cons p rest ih =>
    intro k h
    cases p with
    | nil =>
      rw [waitRunningInstanceLoopExit, Option.map_eq_some'] at h
      obtain ⟨k', hk', rfl⟩ := h
      obtain ⟨⟨q, hq, hready⟩, hbefore⟩ := ih k' hk'
      refine ⟨⟨q, by simpa using hq, hready⟩, ?_⟩
      intro j hj
      cases j with
      | zero => exact ⟨[], by simp, rfl⟩
      | succ j' =>
        obtain ⟨q', hq', hr'⟩ := hbefore j' (by omega)
        exact ⟨q', by simpa using hq', hr'⟩
    | cons e es =>
      by_cases hc : ¬ (e.instanceStatus = "ok") ∨ ¬ (e.systemStatus = "ok")
      · rw [waitRunningInstanceLoopExit, if_pos hc, Option.map_eq_some'] at h
        obtain ⟨k', hk', rfl⟩ := h
        obtain ⟨⟨q, hq, hready⟩, hbefore⟩ := ih k' hk'
        refine ⟨⟨q, by simpa using hq, hready⟩, ?_⟩
        intro j hj
        cases j with
        | zero =>
          refine ⟨e :: es, by simp, ?_⟩
          rcases hc with hc | hc <;> simp [pollReady, hc]
        | succ j' =>
          obtain ⟨q', hq', hr'⟩ := hbefore j' (by omega)
          exact ⟨q', by simpa using hq', hr'⟩
      · rw [waitRunningInstanceLoopExit, if_neg hc] at h
        obtain rfl : (0 : Nat) = k := by simpa using h
        push_neg at hc
        refine ⟨⟨e :: es, by simp, by simp [pollReady, hc.1, hc.2]⟩, ?_⟩
        intro j hj
        omega

/-- C5: in the create branch every new instance is launched in its zone's
public subnet with termination protection enabled and metadata-service
access disabled; the source/destination check is disabled only after the
poll on which the status loop exits observes both checks 'ok', every earlier
poll having been not-ready or empty; and a poll with no status present loops
back to the wait state instead of failing. -/
theorem create_branch_launch_and_readiness (az : AzConfiguration)
    (iid : String) (polls : List Poll) (evs : List Event) (k : Nat)
    (hevs : createInstanceItem az iid polls = some evs)
    (hk : waitRunningInstanceLoopExit polls = some k) :
    Event.runInstance (runInstanceRequest az) ∈ evs
    ∧ (runInstanceRequest az).subnetId = az.publicSubnetId
    ∧ (runInstanceRequest az).disableApiTermination = true
    ∧ (runInstanceRequest az).metadataHttpEndpoint = "disabled"
    ∧ Event.disableSourceDestCheck iid ∈ evs
    ∧ (∃ q, polls[k]? = some q ∧ pollReady q = true)
    ∧ (∀ j, j < k → ∃ q, polls[j]? = some q ∧ pollReady q = false)
    ∧ waitRunningInstanceLoopExit ([] :: polls)
        = (waitRunningInstanceLoopExit polls).map (· + 1) := by
  have hspec := waitRunningInstanceLoopExit_spec polls k hk
  unfold createInstanceItem at hevs
  rw [hk] at hevs
  obtain rfl := Option.some_inj.mp hevs
  exact ⟨by simp, rfl, rfl, rfl, by simp, hspec.1, hspec.2, rfl⟩

theorem create_branch_launch_and_readiness_witness :
    Event.runInstance (runInstanceRequest azExampleA)
        ∈ [Event.getLatestImage, Event.runInstance (runInstanceRequest azExampleA),
           Event.describeInstanceStatus "i-w", Event.describeInstanceStatus "i-w",
           Event.disableSourceDestCheck "i-w"]
    ∧ (∃ q, ([[], readyPoll] : List Poll)[1]? = some q ∧ pollReady q = true) := by
  have h := create_branch_launch_and_readiness azExampleA "i-w" [[], readyPoll]
    [Event.getLatestImage, Event.runInstance (runInstanceRequest azExampleA),
     Event.describeInstanceStatus "i-w", Event.describeInstanceStatus "i-w",
     Event.disableSourceDestCheck "i-w"] 1 rfl rfl
  exact ⟨h.1, h.2.2.2.2.2.1⟩

/-- Item processor of the Instances map in createFallbackStateMachine: the
RawAZConfigurations pass reads $.Instances[0].InstanceId and
$.Instances[0].SubnetId of the reservation item, GetDesiredRouteTableId
filters the AZ configurations on publicSubnetId equality with that subnet,
and the replace-route task (getReplaceRouteWithNatInstanceTask) addresses
$.RouteTable[0].privateRouteTableId with the instance as target.  A failed
JsonPath reference — no instance in the reservation, or an empty filter
result — fails the item (none). -/
def fallbackItem (azs : List AzConfiguration) (r : Reservation) : Option Event :=
  r.instances.head?.bind (fun i =>
    ((azs.filter (fun az => az.publicSubnetId == i.subnetId)).head?).map
      (fun az => Event.replaceRouteWithInstance az.privateRouteTableId i.instanceId))

/-- Runtime behaviour of the NATInstanceFallback state machine
(createFallbackStateMachine): the tag-filtered describeInstances, then the
Instances map over $.NatInstances.Reservations whose catch routes to the
Fallback fail state; with zero reservations the map body never runs and the
execution succeeds. -/
def fallbackStateMachineRun (azs : List AzConfiguration)
    (rs : List Reservation) : ExecStatus × List Event :=
  match rs.mapM (fallbackItem azs) with
  | none => (ExecStatus.failed FailState.fallback, [Event.describeInstances])
  | some evs => (ExecStatus.succeeded, Event.describeInstances :: evs)

/-- mapM over Option succeeds when every element maps to some value, and the
result holds exactly the mapped values. -/
lemma mapM_option_spec {α β : Type} (f : α → Option β) :
    ∀ l : List α, (∀ a ∈ l, (f a).isSome = true) →
      ∃ bs, l.mapM f = some bs ∧ ∀ b, b ∈ bs ↔ ∃ a ∈ l, f a = some b := by
  intro l
  induction l with
  | nil => intro _; exact ⟨[], rfl, by simp⟩
  | cons a t ih =>
    intro h
    obtain ⟨b, hb⟩ := Option.isSome_iff_exists.mp (h a (by simp))
    obtain ⟨bs, hbs, hmem⟩ := ih (fun x hx => h x (by simp [hx]))
    refine ⟨b :: bs, by rw [List.mapM_cons, hb, hbs]; rfl, ?_⟩
    intro c
    simp only [List.mem_cons, hmem]
    constructor
    · rintro (rfl | ⟨a', ha', hfa'⟩)
      · exact ⟨a, by simp, hb⟩
      · exact ⟨a', by simp [ha'], hfa'⟩
    · rintro ⟨a', ha', hfa'⟩
      rcases ha' with rfl | ha''
      · left
        rw [hb] at hfa'
        exact (Option.some_inj.mp hfa').symm
      · right
        exact ⟨a', ha'', hfa'⟩

/-- mapM over Option fails as soon as one element maps to none. -/
lemma mapM_option_eq_none {α β : Type} (f : α → Option β) :
    ∀ l : List α, (∃ a ∈ l, f a = none) → l.mapM f = none := by
  intro l
  induction l with
  | nil => rintro ⟨a, ha, _⟩; simp at ha
  | cons a t ih =>
    rintro ⟨b, hb, hfb⟩
    rcases List.mem_cons.mp hb with rfl | hb'
    · rw [List.mapM_cons, hfb]; rfl
    · cases hfa : f a with
      | none => rw [List.mapM_cons, hfa]; rfl
      | some v => rw [List.mapM_cons, hfa, ih ⟨b, hb', hfb⟩]; rfl

/-- With pairwise-distinct public subnet ids, the equality filter keeps
exactly the member zone carrying the probed subnet id. -/
lemma filter_publicSubnet_eq_singleton :
    ∀ (azs : List AzConfiguration) (az : AzConfiguration),
      (azs.map AzConfiguration.publicSubnetId).Nodup → az ∈ azs →
      azs.filter (fun a => a.publicSubnetId == az.publicSubnetId) = [az] := by
  intro azs
  induction azs with
  | nil => intro az _ h; simp at h
  | cons a t ih =>
    intro az hnd hmem
    rw [List.map_cons, List.nodup_cons] at hnd
    rcases List.mem_cons.mp hmem with rfl | hmem'
    · rw [List.filter_cons, if_pos (by simp)]
      congr 1
      rw [List.filter_eq_nil_iff]
      intro b hb
      simp only [beq_iff_eq]
      intro hbe
      exact hnd.1 (by rw [← hbe]; exact List.mem_map_of_mem _ hb)
    · have hne : ¬ (a.publicSubnetId == az.publicSubnetId) = true := by
        simp only [beq_iff_eq]
        intro he
        exact hnd.1 (by rw [he]; exact List.mem_map_of_mem _ hmem')
      rw [List.filter_cons, if_neg hne]
      exact ih az hnd.2 hmem'

/-- C6: for every set of running instances whose subnets all match a
configured zone (zones having pairwise-distinct public subnet ids, one
instance per reservation), the Fallback execution succeeds and replaces
exactly the default routes of the matched zones, each pointed at the
matching instance; every route mutation it issues targets the private route
table of a zone whose public subnet holds one of the running instances, so
every other zone's route is untouched; with zero running instances it
performs zero route mutations and succeeds. -/
theorem fallback_routes_matched_zones (azs : List AzConfiguration)
    (rs : List Reservation)
    (hnd : (azs.map AzConfiguration.publicSubnetId).Nodup)
    (hone : ∀ r ∈ rs, ∃ i, r.instances = [i])
    (hmatch : ∀ r ∈ rs, ∀ i, r.instances = [i] →
        ∃ az ∈ azs, az.publicSubnetId = i.subnetId) :
    (fallbackStateMachineRun azs rs).1 = ExecStatus.succeeded
    ∧ (∀ r ∈ rs, ∀ i, r.instances = [i] → ∀ az ∈ azs,
        az.publicSubnetId = i.subnetId →
          Event.replaceRouteWithInstance az.privateRouteTableId i.instanceId
            ∈ (fallbackStateMachineRun azs rs).2)
    ∧ (∀ rt iid,
        Event.replaceRouteWithInstance rt iid ∈ (fallbackStateMachineRun azs rs).2 →
          ∃ az ∈ azs, ∃ r ∈ rs, ∃ i, r.instances = [i]
            ∧ iid = i.instanceId ∧ az.publicSubnetId = i.subnetId
            ∧ rt = az.privateRouteTableId)
    ∧ fallbackStateMachineRun azs []
        = (ExecStatus.succeeded, [Event.describeInstances]) := by
  have hitem : ∀ r ∈ rs, ∀ i, r.instances = [i] → ∀ az ∈ azs,
      az.publicSubnetId = i.subnetId →
        fallbackItem azs r
          = some (Event.replaceRouteWithInstance az.privateRouteTableId i.instanceId) := by
    intro r _ i hi az haz hsub
    have hfil : azs.filter (fun a => a.publicSubnetId == i.subnetId) = [az] := by
      rw [← hsub]
      exact filter_publicSubnet_eq_singleton azs az hnd haz
    have hstep : fallbackItem azs r
        = ((azs.filter (fun a => a.publicSubnetId == i.subnetId)).head?).map
            (fun a => Event.replaceRouteWithInstance a.privateRouteTableId i.instanceId) := by
      unfold fallbackItem
      rw [hi]
      rfl
    rw [hstep, hfil]
    rfl
  have hsome : ∀ r ∈ rs, (fallbackItem azs r).isSome = true := by
    intro r hr
    obtain ⟨i, hi⟩ := hone r hr
    obtain ⟨az, haz, hsub⟩ := hmatch r hr i hi
    rw [hitem r hr i hi az haz hsub]
    rfl
  obtain ⟨bs, hbs, hmem⟩ := mapM_option_spec (fallbackItem azs) rs hsome
  have hrun : fallbackStateMachineRun azs rs
      = (ExecStatus.succeeded, Event.describeInstances :: bs) := by
    unfold fallbackStateMachineRun
    rw [hbs]
  refine ⟨by rw [hrun], ?_, ?_, rfl⟩
  · intro r hr i hi az haz hsub
    have hb : Event.replaceRouteWithInstance az.privateRouteTableId i.instanceId ∈ bs :=
      (hmem _).mpr ⟨r, hr, hitem r hr i hi az haz hsub⟩
    rw [hrun]
    exact List.mem_cons_of_mem _ hb
  · intro rt iid hin
    rw [hrun] at hin
    rcases List.mem_cons.mp hin with heq | hbsmem
    · exact Event.noConfusion heq
    · obtain ⟨r, hr, hfr⟩ := (hmem _).mp hbsmem
      obtain ⟨i, hi⟩ := hone r hr
      obtain ⟨az, haz, hsub⟩ := hmatch r hr i hi
      rw [hitem r hr i hi az haz hsub] at hfr
      obtain heq := Option.some_inj.mp hfr
      refine ⟨az, haz, r, hr, i, hi, ?_, hsub, ?_⟩
      · exact (Event.replaceRouteWithInstance.injEq _ _ _ _).mp heq |>.2.symm
      · exact (Event.replaceRouteWithInstance.injEq _ _ _ _).mp heq |>.1.symm

/-- Zone configurations with distinct public subnets used to instantiate the
Fallback theorems. -/
def azExampleB : AzConfiguration :=
  { availabilityZone := "eu-west-1b"
    publicSubnetId := "subnet-pub-b"
    natGatewayId := "nat-b"
    privateSubnetId := "subnet-priv-b"
    privateRouteTableId := "rtb-b" }

/-- Running instance sitting in zone A's public subnet. -/
def instInZoneA : Ec2Instance := { instanceId := "i-a", subnetId := "subnet-pub-a" }

theorem fallback_routes_matched_zones_witness :
    (fallbackStateMachineRun [azExampleA, azExampleB]
        [{ instances := [instInZoneA] }]).1 = ExecStatus.succeeded
    ∧ Event.replaceRouteWithInstance "rtb-a" "i-a"
        ∈ (fallbackStateMachineRun [azExampleA, azExampleB]
            [{ instances := [instInZoneA] }]).2 := by
  have h := fallback_routes_matched_zones [azExampleA, azExampleB]
    [{ instances := [instInZoneA] }]
    (by decide)
    (by
      intro r hr
      have hre : r = { instances := [instInZoneA] } := by simpa using hr
      exact ⟨instInZoneA, by rw [hre]⟩)
    (by
      intro r hr i hi
      refine ⟨azExampleA, by simp, ?_⟩
      have hre : r = { instances := [instInZoneA] } := by simpa using hr
      rw [hre] at hi
      have hieq : instInZoneA = i := by simpa using hi
      rw [← hieq]
      rfl)
  refine ⟨h.1, ?_⟩
  have hm := h.2.1 { instances := [instInZoneA] } (by simp) instInZoneA rfl
    azExampleA (by simp) rfl
  simpa using hm

/-- C9: a running instance whose subnet matches no configured zone makes the
equality filter empty, the replace-route task's $.RouteTable[0] reference
fails, and the whole Fallback execution fails through the map-level catch
into the Fallback fail state — there is no skip-and-continue for an
unmatched instance. -/
theorem fallback_unmatched_instance_fails (azs : List AzConfiguration)
    (rs : List Reservation) (r : Reservation) (i : Ec2Instance)
    (hr : r ∈ rs) (hi : r.instances.head? = some i)
    (hnomatch : ∀ az ∈ azs, az.publicSubnetId ≠ i.subnetId) :
    (fallbackStateMachineRun azs rs).1 = ExecStatus.failed FailState.fallback
    ∧ (fallbackStateMachineRun azs rs).2 = [Event.describeInstances] := by
  have hfil : azs.filter (fun az => az.publicSubnetId == i.subnetId) = [] := by
    rw [List.filter_eq_nil_iff]
    intro a ha
    simpa using hnomatch a ha
  have hnone : fallbackItem azs r = none := by
    unfold fallbackItem
    rw [hi, Option.some_bind, hfil]
    rfl
  have hmap := mapM_option_eq_none (fallbackItem azs) rs ⟨r, hr, hnone⟩
  have hrun : fallbackStateMachineRun azs rs
      = (ExecStatus.failed FailState.fallback, [Event.describeInstances]) := by
    unfold fallbackStateMachineRun
    rw [hmap]
  constructor <;> rw [hrun]

/-- Instance in a subnet no zone configuration carries. -/
def instUnmatched : Ec2Instance := { instanceId := "i-x", subnetId := "subnet-unknown" }

theorem fallback_unmatched_instance_fails_witness :
    (fallbackStateMachineRun [azExampleA, azExampleB]
        [{ instances := [instUnmatched] }]).1 = ExecStatus.failed FailState.fallback := by
  have h := fallback_unmatched_instance_fails [azExampleA, azExampleB]
    [{ instances := [instUnmatched] }] { instances := [instUnmatched] } instUnmatched
    (by simp) rfl (by decide)
  exact h.1

/-- AlreadyRunning? choice of createMaintenanceStateMachine: the execution is
rejected when $.PipelineStatus equals neither 'AVAILABLE' nor 'FAILED'
(i.e. a build is actively in progress). -/
def maintenanceGuardRejects (status : String) : Bool :=
  !(status == "AVAILABLE") && !(status == "FAILED")

/-- Whole-execution sanity timeout of the Maintenance state machine:
timeout: cdk.Duration.minutes(60) in createMaintenanceStateMachine. -/
def maintenanceStateMachineTimeoutMinutes : Nat := 60

/-- Duration of the WaitForPipelineToRun state (10 minutes). -/
def maintenanceInitialWaitMinutes : Nat := 10

/-- Duration of the WaitToFetchStatusAgain state (2 minutes). -/
def maintenancePollIntervalMinutes : Nat := 2

/-- Number of Finished? status checks that fit inside the sanity timeout:
check k happens 10 + 2k minutes into the execution, so checks stop once the
60-minute whole-execution timeout fires. -/
def maintenanceMaxPolls : Nat :=
  (maintenanceStateMachineTimeoutMinutes - maintenanceInitialWaitMinutes) /
      maintenancePollIntervalMinutes + 1

/-- Finished? polling loop of createMaintenanceStateMachine, checking
$.PipelineStatus after each wait: FAILED routes to the ImagePipeline fail
state, a status other than AVAILABLE waits and re-checks, AVAILABLE leaves
the loop.  The fuel argument counts the checks the sanity timeout still
allows; exhausting it means the engine kills the execution with a Timeout
cause.  Returns some (false, k) when check k observes FAILED, some (true, k)
when it observes AVAILABLE, none when the timeout cuts the loop. -/
def maintenancePollLoop (polls : Nat → String) : Nat → Nat → Option (Bool × Nat)
  | 0, _ => none
  | fuel + 1, k =>
    if polls k == "FAILED" then some (false, k)
    else if !(polls k == "AVAILABLE") then maintenancePollLoop polls fuel (k + 1)
    else some (true, k)

/-- Environment of one NATMaintenanceStateMachine execution: the pipeline
status observed by the initial check, the statuses observed by the
successive Finished? checks, and the terminal outcomes of the synchronously
triggered ReplaceInstances and Fallback children. -/
structure MaintenanceEnv where
  initialStatus : String
  polls : Nat → String
  replaceOk : Bool
  fallbackOk : Bool

/-- Runtime behaviour of the NATMaintenanceStateMachine
(createMaintenanceStateMachine): initial status check, AlreadyRunning?
guard, TriggerImagePipelineTask, the wait-and-poll loop, then the
synchronous TriggerReplaceInstances and TriggerFallback whose catches route
to the Generic fail state. -/
def maintenanceStateMachineRun (env : MaintenanceEnv) : ExecStatus × List Event :=
  if maintenanceGuardRejects env.initialStatus then
    (ExecStatus.failed FailState.alreadyRunningPipeline, [Event.getPipelineStatus])
  else
    match maintenancePollLoop env.polls maintenanceMaxPolls 0 with
    | none =>
      (ExecStatus.failed FailState.timeout,
       [Event.getPipelineStatus, Event.triggerPipeline])
    | some (false, _) =>
      (ExecStatus.failed FailState.imagePipeline,
       [Event.getPipelineStatus, Event.triggerPipeline])
    | some (true, _) =>
      if env.replaceOk = false then
        (ExecStatus.failed FailState.generic,
         [Event.getPipelineStatus, Event.triggerPipeline,
          Event.triggerReplaceInstances])
      else if env.fallbackOk = false then
        (ExecStatus.failed FailState.generic,
         [Event.getPipelineStatus, Event.triggerPipeline,
          Event.triggerReplaceInstances, Event.triggerFallback])
      else
        (ExecStatus.succeeded,
         [Event.getPipelineStatus, Event.triggerPipeline,
          Event.triggerReplaceInstances, Event.triggerFallback])

/-- C7: starting MaintenanceWorkflow while the image pipeline's status is
neither AVAILABLE nor FAILED fails with the AlreadyRunningPipeline fail
state (the SingletonConflict equivalent) without triggering a build;
starting it while the status is AVAILABLE or FAILED proceeds to trigger a
new build. -/
theorem maintenance_pipeline_status_guard (env : MaintenanceEnv) :
    (env.initialStatus ≠ "AVAILABLE" → env.initialStatus ≠ "FAILED" →
      maintenanceStateMachineRun env
          = (ExecStatus.failed FailState.alreadyRunningPipeline,
             [Event.getPipelineStatus])
      ∧ Event.triggerPipeline ∉ (maintenanceStateMachineRun env).2)
    ∧ ((env.initialStatus = "AVAILABLE" ∨ env.initialStatus = "FAILED") →
        Event.triggerPipeline ∈ (maintenanceStateMachineRun env).2) := by
  constructor
  · intro h1 h2
    have hg : maintenanceGuardRejects env.initialStatus = true := by
      simp [maintenanceGuardRejects, h1, h2]
    refine ⟨by simp [maintenanceStateMachineRun, hg], ?_⟩
    simp [maintenanceStateMachineRun, hg]
  · intro h
    have hg : maintenanceGuardRejects env.initialStatus = false := by
      rcases h with h | h <;> simp [maintenanceGuardRejects, h]
    rcases hloop : maintenancePollLoop env.polls maintenanceMaxPolls 0
      with _ | ⟨b, k⟩
    · simp [maintenanceStateMachineRun, hg, hloop]
    · cases b
      · simp [maintenanceStateMachineRun, hg, hloop]
      · by_cases hr : env.replaceOk = false
        · simp [maintenanceStateMachineRun, hg, hloop, hr]
        · by_cases hf : env.fallbackOk = false <;>
            simp [maintenanceStateMachineRun, hg, hloop, hr, hf]

/-- Environment observing an in-progress pipeline build on the initial
status check. -/
def envPipelineBusy : MaintenanceEnv :=
  { initialStatus := "BUILDING"
    polls := fun _ => "BUILDING"
    replaceOk := true
    fallbackOk := true }

theorem maintenance_pipeline_status_guard_witness :
    maintenanceStateMachineRun envPipelineBusy
        = (ExecStatus.failed FailState.alreadyRunningPipeline,
           [Event.getPipelineStatus]) := by
  have h := maintenance_pipeline_status_guard envPipelineBusy
  exact (h.1 (by decide) (by decide)).1

/-- C8 counterexample: the Maintenance state machine's whole-execution
sanity timeout is 60 minutes, not the 30 minutes the claim states. -/
theorem maintenance_timeout_is_not_thirty :
    maintenanceStateMachineTimeoutMinutes ≠ 30 := by decide

/-- When no polled status is terminal the loop consumes all its fuel. -/
lemma maintenancePollLoop_none (polls : Nat → String)
    (h : ∀ j, polls j ≠ "AVAILABLE" ∧ polls j ≠ "FAILED") :
    ∀ fuel k, maintenancePollLoop polls fuel k = none := by
  intro fuel
  induction fuel with
  | zero => intro k; rfl
  | succ n ih =>
    intro k
    rw [maintenancePollLoop, if_neg (by simp [(h k).2]),
      if_pos (by simp [(h k).1])]
    exact ih (k + 1)

/-- C8 (amended): the Maintenance build-status polling loop is guarded by
the machine's whole-execution sanity timeout of 60 minutes: an execution
whose polled build status never reaches AVAILABLE or FAILED fails with a
Timeout cause once the 60-minute timeout cuts the loop, rather than polling
indefinitely. -/
theorem maintenance_sanity_timeout (env : MaintenanceEnv)
    (hg : env.initialStatus = "AVAILABLE" ∨ env.initialStatus = "FAILED")
    (hp : ∀ j, env.polls j ≠ "AVAILABLE" ∧ env.polls j ≠ "FAILED") :
    (maintenanceStateMachineRun env).1 = ExecStatus.failed FailState.timeout
    ∧ maintenanceStateMachineTimeoutMinutes = 60 := by
  have hguard : maintenanceGuardRejects env.initialStatus = false := by
    rcases hg with h | h <;> simp [maintenanceGuardRejects, h]
  have hloop := maintenancePollLoop_none env.polls hp maintenanceMaxPolls 0
  exact ⟨by simp [maintenanceStateMachineRun, hguard, hloop], rfl⟩

/-- Environment whose build never reaches a terminal status. -/
def envBuildStuck : MaintenanceEnv :=
  { initialStatus := "AVAILABLE"
    polls := fun _ => "BUILDING"
    replaceOk := true
    fallbackOk := true }

theorem maintenance_sanity_timeout_witness :
    (maintenanceStateMachineRun envBuildStuck).1
        = ExecStatus.failed FailState.timeout
    ∧ maintenanceStateMachineTimeoutMinutes = 60 := by
  refine maintenance_sanity_timeout envBuildStuck (Or.inl rfl) ?_
  intro j
  show ("BUILDING" : String) ≠ "AVAILABLE" ∧ ("BUILDING" : String) ≠ "FAILED"
  exact ⟨by decide, by decide⟩

end NatInstances
